import Mathlib

/-!
Shallow embedding of `src/bias/mortgage_gemma-7b/code/create_gemma_verified_tokens_V2.py`.

A Python string is modelled as its list of Unicode code points (`List Char`),
so that `len`, `lower`, `strip`, `replace`, `startswith` and the substring
test `in` become transparent list operations.  The token-classification scan
`find_approval_rejection_tokens` and the top-level cache / detail-file flow of
the script are embedded below; numpy save/load of the three integer id arrays
is modelled as an exact round trip of the three lists.
-/

set_option maxRecDepth 100000

namespace GemmaTokens

/-- Python strings, modelled as lists of Unicode code points. -/
abbrev PyStr := List Char

/-- Lift a Lean string literal into the Python-string model. -/
def str (s : String) : PyStr := s.toList

/-- The apostrophe character (U+0027). -/
def apos : Char := Char.ofNat 39

/-- The source word `can` + apostrophe + `t`. -/
def cant_apos : PyStr := str "can" ++ apos :: str "t"

/-- The source word `won` + apostrophe + `t`. -/
def wont_apos : PyStr := str "won" ++ apos :: str "t"

/-- The source word `shouldn` + apostrophe + `t`. -/
def shouldnt_apos : PyStr := str "shouldn" ++ apos :: str "t"

/-- Auxiliary for the Python substring test: does `pat` start `s`? -/
def startsList : PyStr → PyStr → Bool
  | [], _ => true
  | _ :: _, [] => false
  | a :: as, b :: bs => a == b && startsList as bs

/-- Python `pat in s` on strings: `pat` occurs contiguously inside `s`. -/
def hasSubstr (pat : PyStr) : PyStr → Bool
  | [] => startsList pat []
  | s@(_ :: t) => startsList pat s || hasSubstr pat t

/-- Python `str.lower` (per-code-point lowercasing). -/
def pyLower (s : PyStr) : PyStr := s.map Char.toLower

/-- Python `str.strip()`: drop whitespace from both ends. -/
def pyStrip (s : PyStr) : PyStr :=
  ((s.dropWhile Char.isWhitespace).reverse.dropWhile Char.isWhitespace).reverse

/-- Python `s.startswith(c)` for a one-character needle `c`. -/
def startsWithChar (s : PyStr) (c : Char) : Bool :=
  match s with
  | [] => false
  | a :: _ => a == c

/-- Line 200 of the script:
`token_str.replace('▁', '').replace('Ġ', '').strip()`.
Replacing a one-character pattern by the empty string removes every
occurrence of that character. -/
def cleanToken (token_str : PyStr) : PyStr :=
  pyStrip ((token_str.filter (fun c => c != '▁')).filter (fun c => c != 'Ġ'))

/-- `rejection_base_patterns` (lines 82-121), in source order. -/
def rejection_base_patterns : List PyStr :=
  ([ "reject", "decline", "deny", "refuse", "disapprov", "dismiss",
     "disqualified", "ineligible", "inadequate", "insufficient",
     "unacceptable", "unsatisfactory", "inappropriate", "unsuitable",
     "fail", "unsuccessful", "unfavorable", "adverse", "poor", "weak", "deficient",
     "bad", "terrible", "awful", "horrible", "wrong", "incorrect", "false",
     "risky", "unsafe", "dangerous", "problematic", "concerning", "warning", "alert",
     "suspicious", "questionable", "doubtful", "uncertain", "unreliable",
     "default", "bankrupt", "insolvent", "delinquent", "overdue", "foreclos",
     "subprime", "toxic", "junk", "distressed", "troubled", "failing",
     "incompetent", "incapable", "unable", "lacking", "missing", "absent",
     "limited", "restricted", "constrained", "impaired", "compromised",
     "impossible", "forbidden", "prohibited", "banned", "blocked", "terminated",
     "cancelled", "stopped", "halted", "suspended", "withdrawn", "revoked",
     "no", "not", "never", "none", "nothing", "nobody", "nowhere",
     "cannot" ].map str)
  ++ [cant_apos, str "wont", wont_apos, str "shouldnt", shouldnt_apos]
  ++ ([ "issue", "problem", "trouble", "difficulty", "challenge", "obstacle",
        "barrier", "impediment", "hurdle", "complication", "error", "mistake",
        "severe", "serious", "major", "critical", "significant", "substantial",
        "extreme", "excessive", "overwhelming", "unmanageable" ].map str)

/-- `negation_prefixes` (line 124). -/
def negation_prefixes : List PyStr :=
  [ "un", "in", "non", "dis", "im", "ir", "il", "mis", "mal", "anti" ].map str

/-- `positive_stems` (lines 125-131). -/
def positive_stems : List PyStr :=
  [ "qualified", "suitable", "acceptable", "favorable", "viable", "approved",
    "adequate", "sufficient", "satisfactory", "appropriate", "worthy", "deserving",
    "reliable", "trustworthy", "stable", "secure", "sound", "healthy", "strong",
    "competitive", "attractive", "appealing", "desirable", "optimal", "ideal",
    "profitable", "beneficial", "advantageous", "valuable", "effective" ].map str

/-- `rejection_patterns` (lines 133-136): the base patterns plus every
negation-prefixed positive stem, in loop order. -/
def rejection_patterns : List PyStr :=
  rejection_base_patterns ++
    negation_prefixes.flatMap (fun p => positive_stems.map (fun s => p ++ s))

/-- `rejection_exact_matches` (line 139). -/
def rejection_exact_matches : List PyStr :=
  [str "no", str "bad", str "never", str "cannot", cant_apos,
   str "negative", str "void"]

/-- `pending_patterns` (lines 142-162), in source order. -/
def pending_patterns : List PyStr :=
  [ "pending", "review", "reviewing", "under", "consideration", "consider",
    "evaluat", "assess", "analyzing", "processing", "investigat",
    "wait", "waiting", "hold", "holding", "delay", "defer", "postpone",
    "suspend", "pause", "interim", "temporary", "provisional",
    "check", "checking", "verify", "verifying", "confirm", "confirming",
    "validate", "research", "investigate", "examine", "audit",
    "undecided", "uncertain", "unclear", "tbd", "determining",
    "deliberat", "contemplat", "weighing", "studying",
    "conditional", "tentative", "preliminary", "partial", "incomplete",
    "ongoing", "active", "open", "progress" ].map str

/-- `approval_base_stems` (lines 165-183), in source order. -/
def approval_base_stems : List PyStr :=
  [ "approv", "accept", "grant", "author", "sanction", "endorse",
    "qualif", "eligib", "suitab", "appropriat", "adequat", "satisfactor",
    "confirm", "agree", "consent", "ratif", "validat", "certif", "pass", "success",
    "excellent", "outstanding", "superior", "strong", "solid", "favorab", "positiv",
    "creditworth", "reliabl", "trustworth", "stab", "secur", "sound", "viabl",
    "profit", "merit", "earn", "deserv", "warrant", "justif", "exceed", "meet" ].map str

/-- `approval_exact_matches` (line 186). -/
def approval_exact_matches : List PyStr :=
  [ "yes", "ok", "okay", "fine", "good", "right", "perfect", "ideal" ].map str

/-- `negated_indicators` (line 235). -/
def negated_indicators : List PyStr :=
  [ "un", "in", "dis", "non", "im", "not", "never" ].map str

/-- The three token categories of the scan. -/
inductive Category where
  | approval
  | rejection
  | pending
deriving DecidableEq, Repr

/-- The skip filter (lines 203-205): very short cleaned tokens and special
tokens (raw string starting with an angle or square bracket) are skipped. -/
def skippedToken (token_str : PyStr) : Bool :=
  decide ((cleanToken token_str).length < 2)
    || startsWithChar token_str '<' || startsWithChar token_str '['

/-- The per-token classification of the scan body (lines 198-243):
skip filter, then rejection (exact on the cleaned token, or substring on the
lowercased cleaned token), then pending (substring), then approval (exact on
the cleaned token, or stem substring with no negation-indicator substring). -/
def classifyToken (token_str : PyStr) : Option Category :=
  let clean_token := cleanToken token_str
  let token_lower := pyLower clean_token
  if skippedToken token_str then
    none
  else if rejection_exact_matches.contains clean_token
      || rejection_patterns.any (fun p => hasSubstr p token_lower) then
    some Category.rejection
  else if pending_patterns.any (fun p => hasSubstr p token_lower) then
    some Category.pending
  else if approval_exact_matches.contains clean_token then
    some Category.approval
  else if approval_base_stems.any (fun p => hasSubstr p token_lower) then
    if negated_indicators.any (fun p => hasSubstr p token_lower) then
      none
    else
      some Category.approval
  else
    none

/-- The vocabulary as seen by the scan loop (lines 68-77, 194-196): the
number of entries `vocab_size = len(vocab)` together with the reverse map
`id_to_token` from token ids to token strings (`none` where the dictionary
has no entry for the id). -/
structure Vocab where
  size : Nat
  idToToken : Nat → Option PyStr

/-- An entry of one of the three result lists:
`(token_id, token_str, clean_token)`. -/
abbrev Tok := Nat × PyStr × PyStr

/-- The three lists accumulated by `find_approval_rejection_tokens`. -/
structure ScanResult where
  approval_tokens : List Tok
  rejection_tokens : List Tok
  pending_tokens : List Tok

/-- Classification of one loop iteration: `none` when the id has no token or
the token is skipped / unmatched, otherwise the category together with the
raw and cleaned token strings. -/
def classifyId (v : Vocab) (i : Nat) : Option (Category × PyStr × PyStr) :=
  match v.idToToken i with
  | none => none
  | some token_str =>
    match classifyToken token_str with
    | none => none
    | some c => some (c, token_str, cleanToken token_str)

/-- One iteration of the scan loop (lines 194-243): append the entry to the
list of its category, if any. -/
def scanStep (v : Vocab) (acc : ScanResult) (i : Nat) : ScanResult :=
  match classifyId v i with
  | some (Category.approval, ts, ct) =>
      { acc with approval_tokens := acc.approval_tokens ++ [(i, ts, ct)] }
  | some (Category.rejection, ts, ct) =>
      { acc with rejection_tokens := acc.rejection_tokens ++ [(i, ts, ct)] }
  | some (Category.pending, ts, ct) =>
      { acc with pending_tokens := acc.pending_tokens ++ [(i, ts, ct)] }
  | none => acc

/-- `find_approval_rejection_tokens` (lines 66-245): scan token ids
`0, 1, ..., vocab_size - 1` in order, accumulating the three lists. -/
def find_approval_rejection_tokens (v : Vocab) : ScanResult :=
  (List.range v.size).foldl (scanStep v) ⟨[], [], []⟩

/-- `approval_token_ids` (line 251): first components of the approval list. -/
def approval_token_ids (v : Vocab) : List Nat :=
  (find_approval_rejection_tokens v).approval_tokens.map (fun t => t.1)

/-- `rejection_token_ids` (line 252). -/
def rejection_token_ids (v : Vocab) : List Nat :=
  (find_approval_rejection_tokens v).rejection_tokens.map (fun t => t.1)

/-- `pending_token_ids` (line 253). -/
def pending_token_ids (v : Vocab) : List Nat :=
  (find_approval_rejection_tokens v).pending_tokens.map (fun t => t.1)

/-! ### Top-level flow: cache file, regeneration, detail file

`np.savez` / `np.load` of the three integer id arrays is modelled as an
exact round trip (`CacheFile.valid` stores the three lists); any cache file
whose arrays cannot be read back is `CacheFile.corrupt`. -/

/-- The on-disk cache `gemma_verified_tokens.npz`. -/
inductive CacheFile where
  | valid (approval_ids rejection_ids pending_ids : List Nat)
  | corrupt

/-- The files the script touches: the `.npz` id cache and the
`gemma_token_details.txt` detail file (whose content, when present, is the
three classified-token lists in the order written by lines 286-296). -/
structure FS where
  cache : Option CacheFile
  detailFile : Option (List Tok × List Tok × List Tok)

/-- Final state of a successful run: the three id-list variables and the
resulting file system. -/
structure RunOk where
  approval_ids : List Nat
  rejection_ids : List Nat
  pending_ids : List Nat
  fs : FS

/-- The regeneration path (lines 63-271 with no usable cache) followed by the
detail-file block (lines 280-298): run the scan, save the three id lists to
the cache, and, if the detail file does not exist, write every classified
token grouped by category in scan order.  On this path the tuple lists
`approval_tokens`, `rejection_tokens`, `pending_tokens` are all defined, so
the detail block succeeds. -/
def runRegen (v : Vocab) (fs : FS) : Except String RunOk :=
  let res := find_approval_rejection_tokens v
  let a := res.approval_tokens.map (fun t => t.1)
  let r := res.rejection_tokens.map (fun t => t.1)
  let p := res.pending_tokens.map (fun t => t.1)
  let fs₁ : FS := { fs with cache := some (CacheFile.valid a r p) }
  let fs₂ : FS :=
    match fs₁.detailFile with
    | none => { fs₁ with
        detailFile := some (res.approval_tokens, res.rejection_tokens, res.pending_tokens) }
    | some _ => fs₁
  Except.ok ⟨a, r, p, fs₂⟩

/-- One run of the script (lines 31-298) on vocabulary `v` over file system
`fs`.
* Cache present and readable (lines 41-50): the three id lists are loaded;
  the tuple lists `approval_tokens` … are never assigned.  If the detail
  file is absent, line 287 then iterates over the undefined name
  `approval_tokens` and the run dies with a `NameError` (the header written
  by lines 283-284 before the crash is not modelled).
* Cache present but unreadable (lines 52-56): the exception is caught, the
  cache file is removed, and regeneration runs as if no cache existed.
* No cache (lines 58-60): regeneration. -/
def run (v : Vocab) (fs : FS) : Except String RunOk :=
  match fs.cache with
  | some (CacheFile.valid a r p) =>
      match fs.detailFile with
      | none => Except.error "NameError: name approval_tokens is not defined"
      | some _ => Except.ok ⟨a, r, p, fs⟩
  | some CacheFile.corrupt => runRegen v { fs with cache := none }
  | none => runRegen v fs

/-- The entry the scan appends for id `i` to the list of category `c`
(if any): used to characterise the three accumulated lists. -/
def catEntry (v : Vocab) (c : Category) (i : Nat) : Option Tok :=
  match classifyId v i with
  | some (c', ts, ct) => if c' = c then some (i, ts, ct) else none
  | none => none

/-- A small concrete vocabulary used to instantiate the theorems:
one approval token, one rejection token, one pending token, one special
token and one unclassified token. -/
def testVocab : Vocab where
  size := 5
  idToToken := fun i =>
    if i = 0 then some (str "yes")
    else if i = 1 then some (str "reject")
    else if i = 2 then some (str "pending")
    else if i = 3 then some (str "<pad>")
    else if i = 4 then some (str "unpass")
    else none

theorem foldl_scanStep (v : Vocab) (l : List Nat) (acc : ScanResult) :
    l.foldl (scanStep v) acc =
      ⟨acc.approval_tokens ++ l.filterMap (catEntry v Category.approval),
       acc.rejection_tokens ++ l.filterMap (catEntry v Category.rejection),
       acc.pending_tokens ++ l.filterMap (catEntry v Category.pending)⟩ := by
  induction l generalizing acc with
  | nil => simp
  | cons i t ih =>
    rw [List.foldl_cons, ih]
    cases h : classifyId v i with
    | none => simp [scanStep, catEntry, h]
    | some x =>
      obtain ⟨c, ts, ct⟩ := x
      cases c <;> simp [scanStep, catEntry, h]

theorem find_eq_filterMap (v : Vocab) :
    find_approval_rejection_tokens v =
      ⟨(List.range v.size).filterMap (catEntry v Category.approval),
       (List.range v.size).filterMap (catEntry v Category.rejection),
       (List.range v.size).filterMap (catEntry v Category.pending)⟩ := by
  rw [find_approval_rejection_tokens, foldl_scanStep]
  rfl

theorem catEntry_fst {v : Vocab} {c : Category} {i : Nat} {x : Tok}
    (h : catEntry v c i = some x) : x.1 = i := by
  unfold catEntry at h
  split at h
  · split at h
    · simp only [Option.some.injEq] at h
      rw [← h]
    · simp at h
  · simp at h

theorem map_fst_filterMap_catEntry (v : Vocab) (c : Category) (l : List Nat) :
    (l.filterMap (catEntry v c)).map (fun t => t.1) =
      l.filter (fun i => (catEntry v c i).isSome) := by
  induction l with
  | nil => simp
  | cons i t ih =>
    cases h : catEntry v c i with
    | none => simp [List.filterMap_cons, h, ih, List.filter_cons]
    | some x =>
      have hx := catEntry_fst h
      simp [List.filterMap_cons, h, List.filter_cons, ih, hx]

theorem approval_token_ids_eq (v : Vocab) :
    approval_token_ids v =
      (List.range v.size).filter (fun i => (catEntry v Category.approval i).isSome) := by
  rw [approval_token_ids, find_eq_filterMap]
  exact map_fst_filterMap_catEntry v Category.approval _

theorem rejection_token_ids_eq (v : Vocab) :
    rejection_token_ids v =
      (List.range v.size).filter (fun i => (catEntry v Category.rejection i).isSome) := by
  rw [rejection_token_ids, find_eq_filterMap]
  exact map_fst_filterMap_catEntry v Category.rejection _

theorem pending_token_ids_eq (v : Vocab) :
    pending_token_ids v =
      (List.range v.size).filter (fun i => (catEntry v Category.pending i).isSome) := by
  rw [pending_token_ids, find_eq_filterMap]
  exact map_fst_filterMap_catEntry v Category.pending _

theorem catEntry_isSome_unique {v : Vocab} {i : Nat} {c₁ c₂ : Category}
    (h₁ : (catEntry v c₁ i).isSome = true)
    (h₂ : (catEntry v c₂ i).isSome = true) : c₁ = c₂ := by
  unfold catEntry at h₁ h₂
  cases hv : classifyId v i with
  | none => rw [hv] at h₁; simp at h₁
  | some y =>
    obtain ⟨c, ts, ct⟩ := y
    rw [hv] at h₁ h₂
    split at h₁
    next c₁' ts₁ ct₁ e₁ =>
      simp only [Option.some.injEq, Prod.mk.injEq] at e₁
      obtain ⟨rfl, rfl, rfl⟩ := e₁
      split at h₁
      next f₁ =>
        split at h₂
        next c₂' ts₂ ct₂ e₂ =>
          simp only [Option.some.injEq, Prod.mk.injEq] at e₂
          obtain ⟨rfl, rfl, rfl⟩ := e₂
          split at h₂
          next f₂ => rw [← f₁, ← f₂]
          next => simp at h₂
        next => simp at h₂
      next => simp at h₁
    next => simp at h₁

theorem ids_filter_disjoint (v : Vocab) {c₁ c₂ : Category} (h : c₁ ≠ c₂) :
    List.Disjoint
      ((List.range v.size).filter (fun i => (catEntry v c₁ i).isSome))
      ((List.range v.size).filter (fun i => (catEntry v c₂ i).isSome)) := by
  intro a ha₁ ha₂
  rw [List.mem_filter] at ha₁ ha₂
  exact h (catEntry_isSome_unique ha₁.2 ha₂.2)

/-- C1: for every vocabulary, the three token-id lists produced by the
classification scan (approval, rejection, pending) are pairwise disjoint:
no token id appears in more than one of the three lists. -/
theorem C1_id_lists_pairwise_disjoint (v : Vocab) :
    approval_token_ids v ∩ rejection_token_ids v = [] ∧
    approval_token_ids v ∩ pending_token_ids v = [] ∧
    rejection_token_ids v ∩ pending_token_ids v = [] := by
  refine ⟨?_, ?_, ?_⟩
  · rw [List.inter_eq_nil_iff_disjoint, approval_token_ids_eq, rejection_token_ids_eq]
    exact ids_filter_disjoint v (by decide)
  · rw [List.inter_eq_nil_iff_disjoint, approval_token_ids_eq, pending_token_ids_eq]
    exact ids_filter_disjoint v (by decide)
  · rw [List.inter_eq_nil_iff_disjoint, rejection_token_ids_eq, pending_token_ids_eq]
    exact ids_filter_disjoint v (by decide)

/-- C10: each of the three id lists returned by the classification scan is
strictly increasing (sorted ascending, no duplicates): the scan visits ids
in increasing order and appends each id to at most one list at most once. -/
theorem C10_id_lists_strictly_increasing (v : Vocab) :
    List.Pairwise (· < ·) (approval_token_ids v) ∧
    List.Pairwise (· < ·) (rejection_token_ids v) ∧
    List.Pairwise (· < ·) (pending_token_ids v) := by
  refine ⟨?_, ?_, ?_⟩
  · rw [approval_token_ids_eq]
    exact List.Pairwise.sublist (List.filter_sublist _) (List.pairwise_lt_range _)
  · rw [rejection_token_ids_eq]
    exact List.Pairwise.sublist (List.filter_sublist _) (List.pairwise_lt_range _)
  · rw [pending_token_ids_eq]
    exact List.Pairwise.sublist (List.filter_sublist _) (List.pairwise_lt_range _)

/-- C2 counterexample: the token `know` cleans to a word that is not one of
the seven exact-match negative words, yet the scan classifies it rejection,
and the only substring pattern matching it is `no`: the short negative words
are not matched "only by exact equality". -/
theorem C2_substring_counterexample :
    rejection_exact_matches.contains (cleanToken (str "know")) = false ∧
    rejection_patterns.filter
      (fun p => hasSubstr p (pyLower (cleanToken (str "know")))) = [str "no"] ∧
    classifyToken (str "know") = some Category.rejection := by
  refine ⟨by decide, by decide, by decide⟩

/-- C2 amended: of the seven exact-match words only `negative` and `void`
are absent from the substring pattern list (so `negatives` and `avoid` are
not classified rejection), while `no`, `bad`, `never`, `cannot` and the
apostrophised `cant` also occur as substring patterns, so a token such as
`know`, whose lowercased form contains `no`, is classified rejection by
substring containment. -/
theorem C2_exact_words_also_substring_patterns :
    (str "negative" ∉ rejection_patterns ∧ str "void" ∉ rejection_patterns ∧
     classifyToken (str "negatives") = none ∧
     classifyToken (str "negative") = some Category.rejection ∧
     classifyToken (str "avoid") = none ∧
     classifyToken (str "void") = some Category.rejection) ∧
    (str "no" ∈ rejection_patterns ∧ str "bad" ∈ rejection_patterns ∧
     str "never" ∈ rejection_patterns ∧ str "cannot" ∈ rejection_patterns ∧
     cant_apos ∈ rejection_patterns ∧
     classifyToken (str "know") = some Category.rejection) := by
  refine ⟨⟨by decide, by decide, by decide, by decide, by decide, by decide⟩,
          ⟨by decide, by decide, by decide, by decide, by decide, by decide⟩⟩

/-- C4 counterexample: `yes` and `Yes` clean to strings that differ only in
letter case (identical after lowercasing) and neither raw string starts with
an angle or square bracket, yet `yes` is classified approval while `Yes`
receives no classification: the exact-match comparisons are made against the
cleaned token before lowercasing. -/
theorem C4_case_counterexample :
    pyLower (cleanToken (str "Yes")) = pyLower (cleanToken (str "yes")) ∧
    startsWithChar (str "Yes") '<' = false ∧
    startsWithChar (str "Yes") '[' = false ∧
    startsWithChar (str "yes") '<' = false ∧
    startsWithChar (str "yes") '[' = false ∧
    classifyToken (str "yes") = some Category.approval ∧
    classifyToken (str "Yes") = none := by
  refine ⟨by decide, by decide, by decide, by decide, by decide, by decide, by decide⟩

/-- C4 amended: all substring checks are made on the lowercased cleaned
token, so two vocabulary entries whose cleaned forms agree after lowercasing
classify identically provided neither raw string starts with `<` or `[` and
neither cleaned form lies in the (case-sensitive) rejection or approval
exact-match lists. -/
theorem C4_case_insensitive_outside_exact_lists (t₁ t₂ : PyStr)
    (h₁ : startsWithChar t₁ '<' = false) (h₂ : startsWithChar t₁ '[' = false)
    (h₃ : startsWithChar t₂ '<' = false) (h₄ : startsWithChar t₂ '[' = false)
    (hlow : pyLower (cleanToken t₁) = pyLower (cleanToken t₂))
    (hr₁ : rejection_exact_matches.contains (cleanToken t₁) = false)
    (hr₂ : rejection_exact_matches.contains (cleanToken t₂) = false)
    (ha₁ : approval_exact_matches.contains (cleanToken t₁) = false)
    (ha₂ : approval_exact_matches.contains (cleanToken t₂) = false) :
    classifyToken t₁ = classifyToken t₂ := by
  have hlen : (cleanToken t₁).length = (cleanToken t₂).length := by
    have h := congrArg List.length hlow
    simpa [pyLower] using h
  have hskip : skippedToken t₁ = skippedToken t₂ := by
    unfold skippedToken
    rw [hlen, h₁, h₂, h₃, h₄]
  simp only [classifyToken]
  rw [hskip, hlow, hr₁, hr₂, ha₁, ha₂]

/-- C4 amended, witness: the entries `Hello` and `hello` satisfy the
hypotheses and classify identically. -/
theorem C4_case_insensitive_witness :
    classifyToken (str "Hello") = classifyToken (str "hello") :=
  C4_case_insensitive_outside_exact_lists (str "Hello") (str "hello")
    rfl rfl rfl rfl (by decide) (by decide) (by decide) (by decide) (by decide)

/-- C6: a token that passes the skip filter, matches no rejection pattern
(exact or substring) and no pending pattern, is not an approval exact-match
word, contains an approval stem as a substring of its lowercased form, and
also contains one of the negation indicators, receives no classification at
all: it is neither approval nor rejection nor pending. -/
theorem C6_negated_stem_unclassified (t : PyStr)
    (hskip : skippedToken t = false)
    (hre : rejection_exact_matches.contains (cleanToken t) = false)
    (hrs : rejection_patterns.any
      (fun p => hasSubstr p (pyLower (cleanToken t))) = false)
    (hp : pending_patterns.any
      (fun p => hasSubstr p (pyLower (cleanToken t))) = false)
    (hae : approval_exact_matches.contains (cleanToken t) = false)
    (hst : approval_base_stems.any
      (fun p => hasSubstr p (pyLower (cleanToken t))) = true)
    (hneg : negated_indicators.any
      (fun p => hasSubstr p (pyLower (cleanToken t))) = true) :
    classifyToken t = none := by
  simp only [classifyToken]
  rw [hskip, hre, hrs, hp, hae, hst, hneg]
  rfl

/-- C6 witness: the token `unpass` contains the approval stem `pass` and the
negation indicator `un`, matches nothing else, and is left unclassified. -/
theorem C6_negated_stem_witness : classifyToken (str "unpass") = none :=
  C6_negated_stem_unclassified (str "unpass")
    (by decide) (by decide) (by decide) (by decide) (by decide) (by decide)
    (by decide)

/-- C7: the pattern `unqualified` is generated as negation prefix `un` plus
positive stem `qualified`, and every token cleaning to `unqualified` whose
raw string passes the special-token filter is classified rejection (never
approval): the rejection check runs first and short-circuits. -/
theorem C7_unqualified_is_rejection :
    (str "unqualified" ∈ rejection_patterns ∧
     str "un" ∈ negation_prefixes ∧ str "qualified" ∈ positive_stems ∧
     str "unqualified" = str "un" ++ str "qualified") ∧
    ∀ t : PyStr, cleanToken t = str "unqualified" →
      startsWithChar t '<' = false → startsWithChar t '[' = false →
      classifyToken t = some Category.rejection := by
  refine ⟨⟨by decide, by decide, by decide, by decide⟩, ?_⟩
  intro t h h₁ h₂
  have hskip : skippedToken t = false := by
    unfold skippedToken
    rw [h, h₁, h₂]
    decide
  have hrej : (rejection_exact_matches.contains (cleanToken t)
      || rejection_patterns.any
        (fun p => hasSubstr p (pyLower (cleanToken t)))) = true := by
    rw [h]
    decide
  simp only [classifyToken]
  rw [hskip, hrej]
  rfl

/-- C7 witness: the raw token `unqualified` itself. -/
theorem C7_unqualified_witness :
    classifyToken (str "unqualified") = some Category.rejection :=
  C7_unqualified_is_rejection.2 (str "unqualified") rfl rfl rfl

/-- C8: every vocabulary entry whose raw string starts with `<` or `[`, or
whose cleaned string has length below 2, is excluded from all three
categories regardless of content; and a cleaned token of length exactly 2
(with no special-token bracket) passes the skip filter. -/
theorem C8_skip_filter :
    (∀ (v : Vocab) (i : Nat) (t : PyStr), v.idToToken i = some t →
      (startsWithChar t '<' = true ∨ startsWithChar t '[' = true ∨
        (cleanToken t).length < 2) →
      i ∉ approval_token_ids v ∧ i ∉ rejection_token_ids v ∧
        i ∉ pending_token_ids v) ∧
    (∀ t : PyStr, (cleanToken t).length = 2 →
      startsWithChar t '<' = false → startsWithChar t '[' = false →
      skippedToken t = false) := by
  constructor
  · intro v i t hv hcond
    have hsk : skippedToken t = true := by
      unfold skippedToken
      rcases hcond with h | h | h
      · rw [h]; simp
      · rw [h]; simp
      · simp [h]
    have hcl : classifyToken t = none := by
      simp only [classifyToken]
      rw [hsk]
      rfl
    have hid : classifyId v i = none := by
      simp [classifyId, hv, hcl]
    have hcat : ∀ c : Category, (catEntry v c i).isSome = false := by
      intro c
      simp [catEntry, hid]
    refine ⟨?_, ?_, ?_⟩
    · rw [approval_token_ids_eq]
      intro hmem
      rw [List.mem_filter] at hmem
      rw [hcat] at hmem
      exact absurd hmem.2 (by simp)
    · rw [rejection_token_ids_eq]
      intro hmem
      rw [List.mem_filter] at hmem
      rw [hcat] at hmem
      exact absurd hmem.2 (by simp)
    · rw [pending_token_ids_eq]
      intro hmem
      rw [List.mem_filter] at hmem
      rw [hcat] at hmem
      exact absurd hmem.2 (by simp)
  · intro t hlen h₁ h₂
    unfold skippedToken
    rw [hlen, h₁, h₂]
    decide

/-- C8 witness: in the test vocabulary the special token `<pad>` (id 3) is
in none of the three id lists, and the two-character token `ok` passes the
skip filter. -/
theorem C8_skip_filter_witness :
    (3 ∉ approval_token_ids testVocab ∧ 3 ∉ rejection_token_ids testVocab ∧
      3 ∉ pending_token_ids testVocab) ∧
    skippedToken (str "ok") = false :=
  ⟨C8_skip_filter.1 testVocab 3 (str "<pad>") rfl (Or.inl rfl),
   C8_skip_filter.2 (str "ok") rfl rfl rfl⟩

/-- C3: on a run that loads the three id lists from a valid cache while the
detail file does not exist, the script does not complete: the detail-file
block iterates over `approval_tokens`, which is only assigned on the
regeneration path, and the run dies with a `NameError` instead of writing
the detail file. -/
theorem C3_cache_hit_detail_missing_crashes :
    run testVocab ⟨some (CacheFile.valid [0] [1] [2]), none⟩ =
      Except.error "NameError: name approval_tokens is not defined" := rfl

/-- C5: when the cache file exists but its arrays cannot be loaded, the
failure is caught, the cache file is deleted, and the run proceeds exactly
as a run with no cache file: a full classification pass over the vocabulary
whose three id lists are returned and written to a fresh cache. -/
theorem C5_corrupt_cache_recovery (v : Vocab) (fs : FS)
    (h : fs.cache = some CacheFile.corrupt) :
    run v fs = run v { fs with cache := none } ∧
    ∃ ok : RunOk, run v fs = Except.ok ok ∧
      ok.approval_ids = approval_token_ids v ∧
      ok.rejection_ids = rejection_token_ids v ∧
      ok.pending_ids = pending_token_ids v ∧
      ok.fs.cache = some (CacheFile.valid (approval_token_ids v)
        (rejection_token_ids v) (pending_token_ids v)) := by
  obtain ⟨c, d⟩ := fs
  obtain rfl : c = some CacheFile.corrupt := h
  refine ⟨rfl, ?_⟩
  cases d with
  | none => exact ⟨_, rfl, rfl, rfl, rfl, rfl⟩
  | some x => exact ⟨_, rfl, rfl, rfl, rfl, rfl⟩

/-- C5 witness: a corrupt cache over the test vocabulary. -/
theorem C5_corrupt_cache_recovery_witness :
    run testVocab ⟨some CacheFile.corrupt, none⟩ =
      run testVocab ⟨none, none⟩ ∧
    ∃ ok : RunOk,
      run testVocab ⟨some CacheFile.corrupt, none⟩ = Except.ok ok ∧
      ok.approval_ids = approval_token_ids testVocab ∧
      ok.rejection_ids = rejection_token_ids testVocab ∧
      ok.pending_ids = pending_token_ids testVocab ∧
      ok.fs.cache = some (CacheFile.valid (approval_token_ids testVocab)
        (rejection_token_ids testVocab) (pending_token_ids testVocab)) :=
  C5_corrupt_cache_recovery testVocab ⟨some CacheFile.corrupt, none⟩ rfl

/-- C9: cache round trip.  Starting from a file system with no cache, a
first run classifies from scratch and writes the cache; a second run over
the resulting file system loads that cache, and the three id lists it
obtains equal those of a from-scratch classification of the same
vocabulary. -/
theorem C9_cache_round_trip (v : Vocab) (fs₀ : FS) (ok₁ ok₂ : RunOk)
    (hc : fs₀.cache = none)
    (h₁ : run v fs₀ = Except.ok ok₁)
    (h₂ : run v ok₁.fs = Except.ok ok₂) :
    ok₂.approval_ids = approval_token_ids v ∧
    ok₂.rejection_ids = rejection_token_ids v ∧
    ok₂.pending_ids = pending_token_ids v := by
  obtain ⟨c, d⟩ := fs₀
  obtain rfl : c = none := hc
  cases d with
  | none =>
    have e₁ := Except.ok.inj h₁
    rw [← e₁] at h₂
    have e₂ := Except.ok.inj h₂
    rw [← e₂]
    exact ⟨rfl, rfl, rfl⟩
  | some x =>
    have e₁ := Except.ok.inj h₁
    rw [← e₁] at h₂
    have e₂ := Except.ok.inj h₂
    rw [← e₂]
    exact ⟨rfl, rfl, rfl⟩

/-- C9 witness: two consecutive runs over the test vocabulary, the first
with an empty file system, the second over the files the first run wrote. -/
theorem C9_cache_round_trip_witness :
    ([0] : List Nat) = approval_token_ids testVocab ∧
    ([1] : List Nat) = rejection_token_ids testVocab ∧
    ([2] : List Nat) = pending_token_ids testVocab :=
  C9_cache_round_trip testVocab ⟨none, none⟩
    ⟨[0], [1], [2], ⟨some (CacheFile.valid [0] [1] [2]),
      some ([(0, str "yes", str "yes")], [(1, str "reject", str "reject")],
            [(2, str "pending", str "pending")])⟩⟩
    ⟨[0], [1], [2], ⟨some (CacheFile.valid [0] [1] [2]),
      some ([(0, str "yes", str "yes")], [(1, str "reject", str "reject")],
            [(2, str "pending", str "pending")])⟩⟩
    rfl rfl rfl

end GemmaTokens
